import Mathlib

/-!
Shallow embedding of the enrollment/payment core of the Chuflay school
backend (`backend/server.py`).

Modelling conventions:
* The Mongo collections are modelled as lists in insertion order; `find_one`
  is first match (`List.find?`), `insert_one` appends, `update_one` updates
  the first matching element (`updateFirst`), `count_documents` is a filtered
  length.
* Python floats (`costo_estudiante`, `monto`, `monto_pagado`) are modelled as
  rationals; the handlers only compare them with `0` and copy them around.
* `datetime.utcnow()` is modelled by a single `now : Nat` parameter per
  request: all timestamps taken inside one handler call coincide.
* Freshly generated ids (`uuid4`) are passed in as explicit parameters; the
  theorems that need it assume they do not collide with existing ids,
  mirroring uuid uniqueness.
* Pydantic validation failures and `None`-dereference crashes that can occur
  after a write (for example building a `Notification` whose `colegio_id` is
  `None`, or reading `activity["nombre"]` when the activity lookup returned
  `None` in `confirm_payment`) are modelled by the `Err.crash` outcome, with
  the state mutated so far kept, since the backend runs without transactions.
* Fields never read or written by the four modelled handlers
  (`created_at`/`updated_at`, images, custom form payloads, free-form dicts)
  are elided from the records.
-/

namespace Chuflay

/-- Roles of `UserRole` in `server.py`. -/
inductive UserRole where
  | admin_global
  | admin_colegio
  | padre
  | estudiante
  | profesor
  | proveedor
deriving DecidableEq, Repr

/-- Payment methods of `PaymentMethod` in `server.py`. -/
inductive PaymentMethod where
  | tarjeta
  | transferencia
  | efectivo
deriving DecidableEq, Repr

/-- Enrollment statuses of `InscriptionStatus` in `server.py`. -/
inductive InscriptionStatus where
  | pendiente
  | confirmada
  | pago_pendiente
  | cancelada
deriving DecidableEq, Repr

/-- Payment statuses of `PaymentStatus` in `server.py`. -/
inductive PaymentStatus where
  | pendiente
  | procesando
  | completado
  | fallido
  | reembolsado
deriving DecidableEq, Repr

/-- The authenticated actor (fields of `User` consumed by the handlers). -/
structure User where
  id : String
  role : UserRole
  colegio_id : Option String
deriving DecidableEq, Repr

/-- A roster entry (fields of `Estudiante` consumed by the handlers). -/
structure Estudiante where
  id : String
  colegio_id : String
  padre_id : Option String
deriving DecidableEq, Repr

/-- An activity (fields of `Activity` consumed by the handlers). -/
structure Activity where
  id : String
  nombre : String
  colegio_id : String
  cupo_maximo : Option Int
  costo_estudiante : ℚ
  metodos_pago : List PaymentMethod
deriving DecidableEq, Repr

/-- One enrollment record (`Inscription` in `server.py`). -/
structure Inscription where
  id : String
  actividad_id : String
  estudiante_id : String
  padre_id : String
  colegio_id : String
  estado : InscriptionStatus
  monto_pagado : ℚ
  metodo_pago_usado : Option PaymentMethod
  fecha_pago : Option Nat
  comentarios : Option String
deriving DecidableEq, Repr

/-- One payment record (`Payment` in `server.py`). -/
structure Payment where
  id : String
  inscripcion_id : String
  actividad_id : String
  estudiante_id : String
  padre_id : String
  monto : ℚ
  metodo_pago : PaymentMethod
  estado : PaymentStatus
  referencia_pago : Option String
  fecha_procesado : Option Nat
  notas : Option String
deriving DecidableEq, Repr

/-- One notification record (`Notification` in `server.py`). -/
structure Notification where
  id : String
  titulo : String
  mensaje : String
  tipo : String
  destinatario_id : String
  destinatario_role : UserRole
  leida : Bool
  colegio_id : String
  actividad_id : Option String
  inscripcion_id : Option String
  pago_id : Option String
deriving DecidableEq, Repr

/-- Request body of `InscriptionCreate`. -/
structure InscriptionCreate where
  actividad_id : String
  estudiante_id : String
  comentarios : Option String
deriving DecidableEq, Repr

/-- Request body of `PaymentCreate`: it carries no amount field, so a client
can never supply the payment amount. -/
structure PaymentCreate where
  inscripcion_id : String
  metodo_pago : PaymentMethod
  notas : Option String
deriving DecidableEq, Repr

/-- Payload of the `create_notification` helper (`NotificationCreate`). -/
structure NotificationCreate where
  titulo : String
  mensaje : String
  tipo : String
  destinatario_id : String
  destinatario_role : UserRole
  actividad_id : Option String
  inscripcion_id : Option String
  pago_id : Option String
deriving DecidableEq, Repr

/-- The document store: one list per collection, in insertion order. -/
structure DB where
  estudiantes : List Estudiante
  actividades : List Activity
  inscripciones : List Inscription
  pagos : List Payment
  notifications : List Notification
deriving DecidableEq, Repr

/-- Outcomes of a handler call. The first four mirror the error taxonomy of
the spec (HTTP 403/404/400); `crash` stands for an unhandled exception raised
after some writes already committed. -/
inductive Err where
  | authz : String → Err
  | notFound : String → Err
  | conflict : String → Err
  | capacityFull : String → Err
  | crash : Err
deriving DecidableEq, Repr

/-- The errors named by the spec's taxonomy (everything except a crash). -/
def Err.isSpecified : Err → Bool
  | .crash => false
  | _ => true

/-- Mongo `update_one`: rewrite the first element matching `p` with `f`. -/
def updateFirst (p : α → Bool) (f : α → α) : List α → List α
  | [] => []
  | x :: xs => if p x then f x :: xs else x :: updateFirst p f xs

/-- Helper `create_notification` of `server.py`: builds the stored record.
Pydantic requires `colegio_id` to be a string, so a `None` tenant reference
makes the request crash, which the caller maps to `Err.crash`. -/
def create_notification (data : NotificationCreate) (colegio_id : Option String)
    (newId : String) : Option Notification :=
  colegio_id.map (fun cid =>
    { id := newId
      titulo := data.titulo
      mensaje := data.mensaje
      tipo := data.tipo
      destinatario_id := data.destinatario_id
      destinatario_role := data.destinatario_role
      leida := false
      colegio_id := cid
      actividad_id := data.actividad_id
      inscripcion_id := data.inscripcion_id
      pago_id := data.pago_id })

/-- Enrollments counted against an activity's capacity: status `confirmada`
or `pago_pendiente` (`count_documents` filter in `create_inscription`). -/
def countActive (db : DB) (actividad_id : String) : Nat :=
  (db.inscripciones.filter (fun i =>
    i.actividad_id == actividad_id &&
      (i.estado == InscriptionStatus.confirmada ||
       i.estado == InscriptionStatus.pago_pendiente))).length

/-- Handler `create_inscription` (`POST /inscripciones`). `newId` is the
uuid of the new enrollment, `notifId` the uuid of the notification. -/
def create_inscription (db : DB) (u : User) (data : InscriptionCreate)
    (newId notifId : String) : DB × Except Err Inscription :=
  if u.role ≠ UserRole.padre then
    (db, .error (.authz "Only parents can inscribe students"))
  else
    match db.estudiantes.find? (fun e =>
        e.id == data.estudiante_id && e.padre_id == some u.id) with
    | none => (db, .error (.notFound "Student not found or not authorized"))
    | some estudiante =>
      match db.actividades.find? (fun a => a.id == data.actividad_id) with
      | none => (db, .error (.notFound "Activity not found"))
      | some activity =>
        if (db.inscripciones.find? (fun i =>
            i.actividad_id == data.actividad_id &&
              i.estudiante_id == data.estudiante_id)).isSome then
          (db, .error (.conflict "Student already inscribed"))
        else
          -- Python: `if activity.get("cupo_maximo"):` — the capacity branch
          -- runs only when `cupo_maximo` is present AND nonzero (truthiness).
          if (match activity.cupo_maximo with
              | none => false
              | some n => n != 0 && n ≤ (countActive db data.actividad_id : Int)) then
            (db, .error (.capacityFull "Activity is full"))
          else
            let inscription : Inscription :=
              { id := newId
                actividad_id := data.actividad_id
                estudiante_id := data.estudiante_id
                padre_id := u.id
                colegio_id := estudiante.colegio_id
                estado := if activity.costo_estudiante > 0 then
                    InscriptionStatus.pago_pendiente
                  else InscriptionStatus.confirmada
                monto_pagado := 0
                metodo_pago_usado := none
                fecha_pago := none
                comentarios := data.comentarios }
            let db1 : DB := { db with inscripciones := db.inscripciones ++ [inscription] }
            let notifData : NotificationCreate :=
              { titulo := "Inscripción Realizada"
                mensaje := "Tu hijo ha sido inscrito en \x27" ++ activity.nombre ++ "\x27" ++
                  (if activity.costo_estudiante > 0 then
                    ". Monto a pagar: $" ++ toString activity.costo_estudiante
                  else "")
                tipo := "inscripcion"
                destinatario_id := u.id
                destinatario_role := UserRole.padre
                actividad_id := some data.actividad_id
                inscripcion_id := some inscription.id
                pago_id := none }
            match create_notification notifData u.colegio_id notifId with
            | none => (db1, .error .crash)
            | some n =>
              ({ db1 with notifications := db1.notifications ++ [n] }, .ok inscription)

/-- Handler `create_payment` (`POST /pagos`). `newId` is the uuid of the new
payment, `refSuffix` the hex token of the generated reference code, `notifId`
the uuid of the notification, `now` the request time. -/
def create_payment (db : DB) (u : User) (data : PaymentCreate)
    (newId refSuffix notifId : String) (now : Nat) : DB × Except Err Payment :=
  if u.role ≠ UserRole.padre then
    (db, .error (.authz "Only parents can make payments"))
  else
    match db.inscripciones.find? (fun i =>
        i.id == data.inscripcion_id && i.padre_id == u.id) with
    | none => (db, .error (.notFound "Inscription not found"))
    | some inscription =>
      match db.actividades.find? (fun a => a.id == inscription.actividad_id) with
      | none => (db, .error (.notFound "Activity not found"))
      | some activity =>
        if (db.pagos.find? (fun p => p.inscripcion_id == data.inscripcion_id)).isSome then
          (db, .error (.conflict "Payment already exists for this inscription"))
        else
          let payment : Payment :=
            { id := newId
              inscripcion_id := data.inscripcion_id
              actividad_id := inscription.actividad_id
              estudiante_id := inscription.estudiante_id
              padre_id := u.id
              monto := activity.costo_estudiante
              metodo_pago := data.metodo_pago
              estado := PaymentStatus.pendiente
              referencia_pago := some ("PAY-" ++ refSuffix)
              fecha_procesado := none
              notas := data.notas }
          let db1 : DB := { db with pagos := db.pagos ++ [payment] }
          -- Method branch: the local `payment` object and the stored row are
          -- both updated; card also promotes the enrollment.
          let branch : DB × Payment × String :=
            match data.metodo_pago with
            | PaymentMethod.efectivo =>
              let pagosPend :=
                updateFirst (fun p => p.id == payment.id)
                  (fun p => { p with estado := PaymentStatus.pendiente }) db1.pagos
              ({ db1 with pagos := pagosPend },
               { payment with estado := PaymentStatus.pendiente },
               "Pago en efectivo registrado. Entrega $" ++
                 toString activity.costo_estudiante ++
                 " en el colegio con referencia PAY-" ++ refSuffix)
            | PaymentMethod.transferencia =>
              let pagosPend :=
                updateFirst (fun p => p.id == payment.id)
                  (fun p => { p with estado := PaymentStatus.pendiente }) db1.pagos
              ({ db1 with pagos := pagosPend },
               { payment with estado := PaymentStatus.pendiente },
               "Pago por transferencia registrado. Envía $" ++
                 toString activity.costo_estudiante ++
                 " con referencia PAY-" ++ refSuffix)
            | PaymentMethod.tarjeta =>
              let pagosDone :=
                updateFirst (fun p => p.id == payment.id)
                  (fun p => { p with estado := PaymentStatus.completado,
                                     fecha_procesado := some now }) db1.pagos
              let db2 : DB := { db1 with pagos := pagosDone }
              let inscDone :=
                updateFirst (fun i => i.id == data.inscripcion_id)
                  (fun i => { i with estado := InscriptionStatus.confirmada,
                                     monto_pagado := activity.costo_estudiante,
                                     metodo_pago_usado := some data.metodo_pago,
                                     fecha_pago := some now }) db2.inscripciones
              let db3 : DB := { db2 with inscripciones := inscDone }
              (db3,
               { payment with estado := PaymentStatus.completado,
                              fecha_procesado := some now },
               "¡Pago completado! Tu hijo está confirmado en \x27" ++
                 activity.nombre ++ "\x27")
          let notifData : NotificationCreate :=
            { titulo := "Pago Procesado"
              mensaje := branch.2.2
              tipo := "pago"
              destinatario_id := u.id
              destinatario_role := UserRole.padre
              actividad_id := some inscription.actividad_id
              inscripcion_id := some data.inscripcion_id
              pago_id := some payment.id }
          match create_notification notifData u.colegio_id notifId with
          | none => (branch.1, .error .crash)
          | some n =>
            ({ branch.1 with notifications := branch.1.notifications ++ [n] },
             .ok branch.2.1)

/-- Handler `confirm_payment` (`PUT /pagos/\x7bpayment_id\x7d/confirmar`).
Returns the confirmation message on success. The activity lookup happens
after the payment row was already updated; a missing activity would crash
while building the notification text, after both updates committed. -/
def confirm_payment (db : DB) (u : User) (payment_id : String)
    (notifId : String) (now : Nat) : DB × Except Err String :=
  if u.role ≠ UserRole.admin_colegio then
    (db, .error (.authz "Only administrators can confirm payments"))
  else
    match db.pagos.find? (fun p => p.id == payment_id) with
    | none => (db, .error (.notFound "Payment not found"))
    | some payment =>
      match db.inscripciones.find? (fun i =>
          i.id == payment.inscripcion_id && some i.colegio_id == u.colegio_id) with
      | none => (db, .error (.authz "Payment not found in your college"))
      | some _inscription =>
        let pagosDone :=
          updateFirst (fun p => p.id == payment_id)
            (fun p => { p with estado := PaymentStatus.completado,
                               fecha_procesado := some now }) db.pagos
        let db1 : DB := { db with pagos := pagosDone }
        let inscDone :=
          updateFirst (fun i => i.id == payment.inscripcion_id)
            (fun i => { i with estado := InscriptionStatus.confirmada,
                               monto_pagado := payment.monto,
                               metodo_pago_usado := some payment.metodo_pago,
                               fecha_pago := some now }) db1.inscripciones
        let db2 : DB := { db1 with inscripciones := inscDone }
        match db1.actividades.find? (fun a => a.id == _inscription.actividad_id) with
        | none => (db2, .error .crash)
        | some activity =>
          let notifData : NotificationCreate :=
            { titulo := "¡Pago Confirmado!"
              mensaje := "Tu pago ha sido confirmado. Tu hijo está inscrito en \x27" ++
                activity.nombre ++ "\x27"
              tipo := "pago"
              destinatario_id := payment.padre_id
              destinatario_role := UserRole.padre
              actividad_id := some payment.actividad_id
              inscripcion_id := some payment.inscripcion_id
              pago_id := some payment_id }
          match create_notification notifData u.colegio_id notifId with
          | none => (db2, .error .crash)
          | some n =>
            ({ db2 with notifications := db2.notifications ++ [n] },
             .ok "Payment confirmed successfully")

/-! Concrete states used by the witnesses: one tenant `col1`, one parent
`u1` owning student `s1`, a priced activity `a1` and a copy `a2` whose
`cupo_maximo` is `0`, plus one with an empty payment-method list. -/

def exParent : User := { id := "u1", role := UserRole.padre, colegio_id := some "col1" }

def exAdmin : User := { id := "adm1", role := UserRole.admin_colegio, colegio_id := some "col1" }

def exStudent : Estudiante := { id := "s1", colegio_id := "col1", padre_id := some "u1" }

def exAct : Activity :=
  { id := "a1", nombre := "Robotica", colegio_id := "col1", cupo_maximo := some 10,
    costo_estudiante := 50, metodos_pago := [PaymentMethod.transferencia] }

def exActCap0 : Activity := { exAct with id := "a2", cupo_maximo := some 0 }

def exActNoMethods : Activity := { exAct with id := "a3", metodos_pago := [] }

def exDB : DB :=
  { estudiantes := [exStudent], actividades := [exAct, exActCap0, exActNoMethods],
    inscripciones := [], pagos := [], notifications := [] }

def exData : InscriptionCreate :=
  { actividad_id := "a1", estudiante_id := "s1", comentarios := none }

def exDataCap0 : InscriptionCreate :=
  { actividad_id := "a2", estudiante_id := "s1", comentarios := none }

/-- The enrollment created by `create_inscription exDB exParent exData`. -/
def exInsc : Inscription :=
  { id := "i1", actividad_id := "a1", estudiante_id := "s1", padre_id := "u1",
    colegio_id := "col1", estado := InscriptionStatus.pago_pendiente, monto_pagado := 0,
    metodo_pago_usado := none, fecha_pago := none, comentarios := none }

/-- State after the parent enrolled `s1` into `a1`. -/
def exDB1 : DB := (create_inscription exDB exParent exData "i1" "n1").1

def exPayDataT : PaymentCreate :=
  { inscripcion_id := "i1", metodo_pago := PaymentMethod.tarjeta, notas := none }

def exPayDataTr : PaymentCreate :=
  { inscripcion_id := "i1", metodo_pago := PaymentMethod.transferencia, notas := none }

/-- The payment returned by a card `create_payment` on `exDB1` at time 100. -/
def exPayT : Payment :=
  { id := "p1", inscripcion_id := "i1", actividad_id := "a1", estudiante_id := "s1",
    padre_id := "u1", monto := 50, metodo_pago := PaymentMethod.tarjeta,
    estado := PaymentStatus.completado, referencia_pago := some "PAY-REF1",
    fecha_procesado := some 100, notas := none }

/-- State after a pending transfer payment was recorded on `exDB1`. -/
def exDB2 : DB := (create_payment exDB1 exParent exPayDataTr "p1" "REF1" "n2" 100).1

/-- The pending transfer payment stored in `exDB2`. -/
def exPayTr : Payment :=
  { id := "p1", inscripcion_id := "i1", actividad_id := "a1", estudiante_id := "s1",
    padre_id := "u1", monto := 50, metodo_pago := PaymentMethod.transferencia,
    estado := PaymentStatus.pendiente, referencia_pago := some "PAY-REF1",
    fecha_procesado := none, notas := none }

/-! Generic lemmas about the Mongo primitives. -/

theorem updateFirst_of_find?_none {p : α → Bool} {f : α → α} {l : List α}
    (h : l.find? p = none) : updateFirst p f l = l := by
  induction l with
  | nil => rfl
  | cons x xs ih =>
    cases hx : p x with
    | true => simp [List.find?_cons, hx] at h
    | false =>
      rw [List.find?_cons, hx] at h
      simp [updateFirst, hx, ih h]

theorem find?_updateFirst {p : α → Bool} {f : α → α} (l : List α)
    (hp : ∀ a, p a = true → p (f a) = true) :
    (updateFirst p f l).find? p = (l.find? p).map f := by
  induction l with
  | nil => rfl
  | cons x xs ih =>
    cases hx : p x with
    | true => simp [updateFirst, hx, List.find?_cons, hp x hx]
    | false => simp [updateFirst, hx, List.find?_cons, ih]

theorem updateFirst_append_of_none {p : α → Bool} {f : α → α} {l : List α} (m : List α)
    (h : l.find? p = none) : updateFirst p f (l ++ m) = l ++ updateFirst p f m := by
  induction l with
  | nil => rfl
  | cons x xs ih =>
    cases hx : p x with
    | true => simp [List.find?_cons, hx] at h
    | false =>
      rw [List.find?_cons, hx] at h
      simp [updateFirst, hx, ih h]

/-- When the mapped keys are pairwise distinct, a record found by a
conjunction of a key test with extra conditions is also the first record
matching the key test alone. -/
theorem find?_key_of_find?_conj {key : α → String} {q : α → Bool} {l : List α}
    {k : String} {x : α} (hnd : (l.map key).Nodup)
    (h : l.find? (fun a => key a == k && q a) = some x) :
    l.find? (fun a => key a == k) = some x := by
  induction l with
  | nil => simp at h
  | cons y ys ih =>
    rw [List.map_cons, List.nodup_cons] at hnd
    cases hk : (key y == k) with
    | false =>
      rw [List.find?_cons, hk]
      rw [List.find?_cons] at h
      simp only [hk, Bool.false_and] at h
      exact ih hnd.2 h
    | true =>
      cases hq : q y with
      | true =>
        rw [List.find?_cons] at h
        simp only [hk, hq, Bool.and_self] at h
        cases h
        rw [List.find?_cons, hk]
      | false =>
        exfalso
        rw [List.find?_cons] at h
        simp only [hk, hq, Bool.true_and] at h
        have hx : x ∈ ys := List.mem_of_find?_eq_some h
        have hpx : (key x == k && q x) = true := by
          have hh := List.find?_some h
          simpa using hh
        have hkx : key x = k := by
          rw [Bool.and_eq_true] at hpx
          simpa using hpx.1
        apply hnd.1
        have hky : key y = k := by simpa using hk
        rw [hky, ← hkx]
        exact List.mem_map_of_mem key hx

/-! Claim theorems. -/

/-- C6: every successful `create_payment` stores the referenced Activity's
price as the payment amount; the request body (`PaymentCreate`) carries no
amount field, so the client cannot influence it, and a zero-price Activity
still yields a successful payment with amount `0` (the hypotheses nowhere
constrain `act.costo_estudiante`). -/
theorem create_payment_amount_is_activity_price
    {db : DB} {u : User} {data : PaymentCreate} {insc : Inscription} {act : Activity}
    {cid : String} (newId refSuffix notifId : String) (now : Nat)
    (hrole : u.role = UserRole.padre)
    (hi : db.inscripciones.find? (fun i =>
        i.id == data.inscripcion_id && i.padre_id == u.id) = some insc)
    (ha : db.actividades.find? (fun a => a.id == insc.actividad_id) = some act)
    (hp : db.pagos.find? (fun p => p.inscripcion_id == data.inscripcion_id) = none)
    (hc : u.colegio_id = some cid) :
    ∃ db' pay, create_payment db u data newId refSuffix notifId now = (db', .ok pay) ∧
      pay.monto = act.costo_estudiante := by
  cases hm : data.metodo_pago <;>
    simp only [create_payment, hrole, hi, ha, hp, hc, hm, create_notification] <;>
    simp <;> exact ⟨_, _, ⟨rfl, rfl⟩, rfl⟩

/-- C6 witness: the parent pays for the enrollment `i1` of `exDB1` by card. -/
theorem create_payment_amount_is_activity_price_witness :
    exParent.role = UserRole.padre ∧
    exDB1.inscripciones.find? (fun i =>
        i.id == exPayDataT.inscripcion_id && i.padre_id == exParent.id) = some exInsc ∧
    exDB1.actividades.find? (fun a => a.id == exInsc.actividad_id) = some exAct ∧
    exDB1.pagos.find? (fun p => p.inscripcion_id == exPayDataT.inscripcion_id) = none ∧
    exParent.colegio_id = some "col1" ∧
    ∃ db' pay, create_payment exDB1 exParent exPayDataT "p1" "REF1" "n2" 100 =
        (db', .ok pay) ∧ pay.monto = exAct.costo_estudiante :=
  ⟨by decide, by decide, by decide, by decide, by decide,
    @create_payment_amount_is_activity_price exDB1 exParent exPayDataT exInsc exAct
      "col1" "p1" "REF1" "n2" 100
      (by decide) (by decide) (by decide) (by decide) (by decide)⟩

/-- C10: `create_payment` never consults the Activity's allowed payment
methods: even under the explicit hypothesis that the requested method is
absent from `act.metodos_pago` (which covers the empty list), the call
succeeds whenever the actual preconditions hold. -/
theorem create_payment_ignores_metodos_pago
    {db : DB} {u : User} {data : PaymentCreate} {insc : Inscription} {act : Activity}
    {cid : String} (newId refSuffix notifId : String) (now : Nat)
    (hrole : u.role = UserRole.padre)
    (hi : db.inscripciones.find? (fun i =>
        i.id == data.inscripcion_id && i.padre_id == u.id) = some insc)
    (ha : db.actividades.find? (fun a => a.id == insc.actividad_id) = some act)
    (hp : db.pagos.find? (fun p => p.inscripcion_id == data.inscripcion_id) = none)
    (hc : u.colegio_id = some cid)
    (_hm : data.metodo_pago ∉ act.metodos_pago) :
    ∃ db' pay, create_payment db u data newId refSuffix notifId now = (db', .ok pay) ∧
      pay.metodo_pago = data.metodo_pago := by
  cases hmt : data.metodo_pago <;>
    simp only [create_payment, hrole, hi, ha, hp, hc, hmt, create_notification] <;>
    simp <;> exact ⟨_, _, ⟨rfl, rfl⟩, rfl⟩

/-- C10 witness: a card payment against activity `a3`, whose allowed-method
list is empty, still succeeds. -/
theorem create_payment_ignores_metodos_pago_witness :
    PaymentMethod.tarjeta ∉ exActNoMethods.metodos_pago ∧
    ∃ db' pay, create_payment
        { exDB with inscripciones := [{ exInsc with actividad_id := "a3" }] }
        exParent exPayDataT "p1" "REF1" "n2" 100 = (db', .ok pay) ∧
      pay.metodo_pago = exPayDataT.metodo_pago :=
  ⟨by decide,
    @create_payment_ignores_metodos_pago
      { exDB with inscripciones := [{ exInsc with actividad_id := "a3" }] }
      exParent exPayDataT { exInsc with actividad_id := "a3" } exActNoMethods
      "col1" "p1" "REF1" "n2" 100
      (by decide) (by decide) (by decide) (by decide) (by decide) (by decide)⟩

/-- C5: a `confirm_payment` call by a tenant-admin on an existing Payment
whose Enrollment belongs to the admin's tenant completes the Payment (status
`completado`, processed timestamp set to the request time) and promotes the
sibling Enrollment (status `confirmada`, paid amount and method copied from
the Payment, payment timestamp set to the same request time as the Payment's
processed timestamp — `utcnow` is one `now` per request in this model). The
conclusion holds for the state the handler commits whether or not the
trailing notification step succeeds. -/
theorem confirm_payment_promotes
    {db : DB} {u : User} {payment_id : String} {pay : Payment} {insc : Inscription}
    (notifId : String) (now : Nat)
    (hrole : u.role = UserRole.admin_colegio)
    (hp : db.pagos.find? (fun p => p.id == payment_id) = some pay)
    (hi : db.inscripciones.find? (fun i =>
        i.id == pay.inscripcion_id && some i.colegio_id == u.colegio_id) = some insc)
    (hnd : (db.inscripciones.map (fun i => i.id)).Nodup) :
    (confirm_payment db u payment_id notifId now).1.pagos.find?
        (fun p => p.id == payment_id) =
      some { pay with estado := PaymentStatus.completado, fecha_procesado := some now } ∧
    (confirm_payment db u payment_id notifId now).1.inscripciones.find?
        (fun i => i.id == pay.inscripcion_id) =
      some { insc with estado := InscriptionStatus.confirmada,
                       monto_pagado := pay.monto,
                       metodo_pago_usado := some pay.metodo_pago,
                       fecha_pago := some now } := by
  have hid : db.inscripciones.find? (fun i => i.id == pay.inscripcion_id) = some insc :=
    @find?_key_of_find?_conj Inscription (fun i => i.id)
      (fun i => some i.colegio_id == u.colegio_id) db.inscripciones
      pay.inscripcion_id insc hnd hi
  have hstate :
      (confirm_payment db u payment_id notifId now).1.pagos =
        updateFirst (fun p => p.id == payment_id)
          (fun p => { p with estado := PaymentStatus.completado,
                             fecha_procesado := some now }) db.pagos ∧
      (confirm_payment db u payment_id notifId now).1.inscripciones =
        updateFirst (fun i => i.id == pay.inscripcion_id)
          (fun i => { i with estado := InscriptionStatus.confirmada,
                             monto_pagado := pay.monto,
                             metodo_pago_usado := some pay.metodo_pago,
                             fecha_pago := some now }) db.inscripciones := by
    rcases hC : u.colegio_id with _ | cid <;> rw [hC] at hi <;> simp at hi <;>
      rcases hA : List.find? (fun a => a.id == insc.actividad_id) db.actividades
          with _ | act <;>
        simp [confirm_payment, hrole, hp, hi, hC, hA, create_notification]
  have h1 : (updateFirst (fun p => p.id == payment_id)
      (fun p => { p with estado := PaymentStatus.completado,
                         fecha_procesado := some now })
      db.pagos).find? (fun p => p.id == payment_id) =
      (db.pagos.find? (fun p => p.id == payment_id)).map
        (fun p => { p with estado := PaymentStatus.completado,
                           fecha_procesado := some now }) :=
    find?_updateFirst db.pagos (fun a h => h)
  have h2 : (updateFirst (fun i => i.id == pay.inscripcion_id)
      (fun i => { i with estado := InscriptionStatus.confirmada,
                         monto_pagado := pay.monto,
                         metodo_pago_usado := some pay.metodo_pago,
                         fecha_pago := some now })
      db.inscripciones).find? (fun i => i.id == pay.inscripcion_id) =
      (db.inscripciones.find? (fun i => i.id == pay.inscripcion_id)).map
        (fun i => { i with estado := InscriptionStatus.confirmada,
                           monto_pagado := pay.monto,
                           metodo_pago_usado := some pay.metodo_pago,
                           fecha_pago := some now }) :=
    find?_updateFirst db.inscripciones (fun a h => h)
  exact ⟨by rw [hstate.1, h1, hp]; rfl, by rw [hstate.2, h2, hid]; rfl⟩

/-- C5 witness: the tenant-admin confirms the pending transfer payment of
`exDB2` at time 200. -/
theorem confirm_payment_promotes_witness :
    exAdmin.role = UserRole.admin_colegio ∧
    exDB2.pagos.find? (fun p => p.id == "p1") = some exPayTr ∧
    exDB2.inscripciones.find? (fun i =>
        i.id == exPayTr.inscripcion_id && some i.colegio_id == exAdmin.colegio_id) =
      some exInsc ∧
    (exDB2.inscripciones.map (fun i => i.id)).Nodup ∧
    ((confirm_payment exDB2 exAdmin "p1" "n3" 200).1.pagos.find?
        (fun p => p.id == "p1") =
      some { exPayTr with estado := PaymentStatus.completado,
                          fecha_procesado := some 200 } ∧
    (confirm_payment exDB2 exAdmin "p1" "n3" 200).1.inscripciones.find?
        (fun i => i.id == exPayTr.inscripcion_id) =
      some { exInsc with estado := InscriptionStatus.confirmada,
                         monto_pagado := exPayTr.monto,
                         metodo_pago_usado := some exPayTr.metodo_pago,
                         fecha_pago := some 200 }) :=
  ⟨by decide, by decide, by decide, by decide,
    @confirm_payment_promotes exDB2 exAdmin "p1" exPayTr exInsc "n3" 200
      (by decide) (by decide) (by decide) (by decide)⟩

/-- Helper: a notification built by `create_notification` carries the
recipient of its payload. -/
theorem create_notification_destinatario {data : NotificationCreate}
    {c : Option String} {nid : String} {n : Notification}
    (h : create_notification data c nid = some n) :
    n.destinatario_id = data.destinatario_id := by
  rcases c with _ | cid
  · simp [create_notification] at h
  · simp only [create_notification, Option.map] at h
    rw [Option.some.injEq] at h
    rw [← h]

/-- Helper: when the role/student/activity checks pass and some enrollment
for the (activity, student) pair already exists — whatever its status — the
handler stops at the duplicate check with a ConflictError and an unchanged
state. -/
theorem enroll_conflict_of_pair_exists
    {db : DB} {u : User} {data : InscriptionCreate} {est : Estudiante} {act : Activity}
    {e : Inscription} (newId notifId : String)
    (hrole : u.role = UserRole.padre)
    (hest : db.estudiantes.find? (fun x =>
        x.id == data.estudiante_id && x.padre_id == some u.id) = some est)
    (hact : db.actividades.find? (fun a => a.id == data.actividad_id) = some act)
    (hmem : e ∈ db.inscripciones)
    (hea : e.actividad_id = data.actividad_id)
    (hes : e.estudiante_id = data.estudiante_id) :
    create_inscription db u data newId notifId =
      (db, .error (.conflict "Student already inscribed")) := by
  have hdup : (db.inscripciones.find? (fun i =>
      i.actividad_id == data.actividad_id &&
        i.estudiante_id == data.estudiante_id)).isSome = true :=
    List.find?_isSome.mpr ⟨e, hmem, by simp [hea, hes]⟩
  simp [create_inscription, hrole, hest, hact, hdup]

/-- Helper: the enrollment collection after a `create_inscription` call is
either untouched, or extended by exactly one record for the requested pair,
and in the latter case the pair had no record before the call. -/
theorem create_inscription_inscripciones_shape
    (db : DB) (u : User) (data : InscriptionCreate) (newId notifId : String) :
    (create_inscription db u data newId notifId).1.inscripciones = db.inscripciones ∨
    (db.inscripciones.find? (fun i =>
        i.actividad_id == data.actividad_id &&
          i.estudiante_id == data.estudiante_id) = none ∧
      ∃ insc : Inscription, insc.actividad_id = data.actividad_id ∧
        insc.estudiante_id = data.estudiante_id ∧
        (create_inscription db u data newId notifId).1.inscripciones =
          db.inscripciones ++ [insc]) := by
  simp only [create_inscription]
  repeat' split
  all_goals try exact Or.inl rfl
  all_goals refine Or.inr ⟨?_, _, rfl, rfl, rfl⟩
  all_goals rw [← Option.not_isSome_iff_eq_none]
  all_goals assumption

/-- C4: under sequential execution the (activity, student) pair is unique:
a second `enroll` for a pair that already has an Enrollment fails with
ConflictError and leaves the state untouched (first conjunct), and a call
never takes a state with at-most-one-Enrollment-per-pair to a state
violating it (second conjunct). -/
theorem create_inscription_pair_uniqueness :
    (∀ (db : DB) (u : User) (data : InscriptionCreate) (newId notifId : String)
        (est : Estudiante) (act : Activity) (e : Inscription),
      u.role = UserRole.padre →
      db.estudiantes.find? (fun x =>
          x.id == data.estudiante_id && x.padre_id == some u.id) = some est →
      db.actividades.find? (fun a => a.id == data.actividad_id) = some act →
      e ∈ db.inscripciones → e.actividad_id = data.actividad_id →
      e.estudiante_id = data.estudiante_id →
      create_inscription db u data newId notifId =
        (db, .error (.conflict "Student already inscribed"))) ∧
    (∀ (db : DB) (u : User) (data : InscriptionCreate) (newId notifId : String),
      (∀ a s, (db.inscripciones.filter (fun i =>
          i.actividad_id == a && i.estudiante_id == s)).length ≤ 1) →
      ∀ a s, ((create_inscription db u data newId notifId).1.inscripciones.filter
          (fun i => i.actividad_id == a && i.estudiante_id == s)).length ≤ 1) := by
  constructor
  · intro db u data newId notifId est act e hrole hest hact hmem hea hes
    exact enroll_conflict_of_pair_exists newId notifId hrole hest hact hmem hea hes
  · intro db u data newId notifId hpu a s
    rcases create_inscription_inscripciones_shape db u data newId notifId with
      h | ⟨hdup, insc, hia, his, h⟩
    · rw [h]; exact hpu a s
    · rw [h, List.filter_append, List.length_append]
      by_cases hq : (insc.actividad_id == a && insc.estudiante_id == s) = true
      · have hfil : db.inscripciones.filter (fun i =>
            i.actividad_id == a && i.estudiante_id == s) = [] := by
          rw [List.filter_eq_nil_iff]
          intro x hx hpx
          have hnone := List.find?_eq_none.mp hdup x hx
          rw [Bool.and_eq_true] at hq hpx
          apply hnone
          rw [Bool.and_eq_true]
          have h1 : a = data.actividad_id := by
            have hq1 : insc.actividad_id = a := by simpa using hq.1
            rw [← hia]; exact hq1.symm
          have h2 : s = data.estudiante_id := by
            have hq2 : insc.estudiante_id = s := by simpa using hq.2
            rw [← his]; exact hq2.symm
          rw [← h1, ← h2]
          exact hpx
        rw [hfil]
        simp [hq]
      · simp only [List.filter, hq]
        simpa using hpu a s
  
/-- C4 witness: re-enrolling the already enrolled pair (`a1`, `s1`) of
`exDB1` is rejected with a ConflictError and no state change. -/
theorem create_inscription_pair_uniqueness_witness :
    exInsc ∈ exDB1.inscripciones ∧
    create_inscription exDB1 exParent exData "i2" "n9" =
      (exDB1, .error (.conflict "Student already inscribed")) :=
  ⟨by decide,
    create_inscription_pair_uniqueness.1 exDB1 exParent exData "i2" "n9"
      exStudent exAct exInsc (by decide) (by decide) (by decide) (by decide)
      (by decide) (by decide)⟩

/-- C9: the duplicate check of `enroll` ignores the existing Enrollment's
status — a `cancelada` record for the pair still forces a ConflictError
(first conjunct) — even though `cancelada` records add nothing to the
capacity count (second conjunct). -/
theorem cancelled_enrollment_blocks_pair_not_capacity :
    (∀ (db : DB) (u : User) (data : InscriptionCreate) (newId notifId : String)
        (est : Estudiante) (act : Activity) (e : Inscription),
      u.role = UserRole.padre →
      db.estudiantes.find? (fun x =>
          x.id == data.estudiante_id && x.padre_id == some u.id) = some est →
      db.actividades.find? (fun a => a.id == data.actividad_id) = some act →
      e ∈ db.inscripciones → e.actividad_id = data.actividad_id →
      e.estudiante_id = data.estudiante_id →
      e.estado = InscriptionStatus.cancelada →
      create_inscription db u data newId notifId =
        (db, .error (.conflict "Student already inscribed"))) ∧
    (∀ (db : DB) (e : Inscription) (a : String),
      e.estado = InscriptionStatus.cancelada →
      countActive { db with inscripciones := db.inscripciones ++ [e] } a =
        countActive db a) := by
  constructor
  · intro db u data newId notifId est act e hrole hest hact hmem hea hes _hcanc
    exact enroll_conflict_of_pair_exists newId notifId hrole hest hact hmem hea hes
  · intro db e a hcanc
    simp [countActive, List.filter_append, hcanc]

/-- C9 witness: with the pair enrollment of `exDB1` cancelled, re-enrolling
still hits the ConflictError, and the cancelled record does not raise the
capacity count. -/
theorem cancelled_enrollment_blocks_pair_not_capacity_witness :
    (create_inscription
        { exDB1 with inscripciones := [{ exInsc with estado := InscriptionStatus.cancelada }] }
        exParent exData "i2" "n9" =
      ({ exDB1 with inscripciones := [{ exInsc with estado := InscriptionStatus.cancelada }] },
        .error (.conflict "Student already inscribed"))) ∧
    countActive { exDB with inscripciones :=
        exDB.inscripciones ++ [{ exInsc with estado := InscriptionStatus.cancelada }] } "a1" =
      countActive exDB "a1" :=
  ⟨cancelled_enrollment_blocks_pair_not_capacity.1
      { exDB1 with inscripciones := [{ exInsc with estado := InscriptionStatus.cancelada }] }
      exParent exData "i2" "n9" exStudent exAct
      { exInsc with estado := InscriptionStatus.cancelada }
      (by decide) (by decide) (by decide) (by decide) (by decide) (by decide) (by decide),
    cancelled_enrollment_blocks_pair_not_capacity.2 exDB
      { exInsc with estado := InscriptionStatus.cancelada } "a1" (by decide)⟩

/-- C3 counterexample: activity `a2` has its capacity set to `N = 0`, all
other preconditions of `enroll` hold and the active-enrollment count (0) is
at least `N`, yet the call succeeds instead of failing with CapacityError:
`if activity.get("cupo_maximo"):` in `create_inscription` is falsy for `0`,
so a capacity of zero is never enforced. -/
theorem capacity_zero_skipped_counterexample :
    exActCap0.cupo_maximo = some 0 ∧
    exParent.role = UserRole.padre ∧
    exDB.estudiantes.find? (fun e =>
        e.id == exDataCap0.estudiante_id && e.padre_id == some exParent.id) =
      some exStudent ∧
    exDB.actividades.find? (fun a => a.id == exDataCap0.actividad_id) =
      some exActCap0 ∧
    exDB.inscripciones.find? (fun i =>
        i.actividad_id == exDataCap0.actividad_id &&
          i.estudiante_id == exDataCap0.estudiante_id) = none ∧
    countActive exDB exDataCap0.actividad_id = 0 ∧
    (create_inscription exDB exParent exDataCap0 "i1" "n1").2 =
      .ok { exInsc with actividad_id := "a2" } ∧
    ¬ (create_inscription exDB exParent exDataCap0 "i1" "n1").2 =
      .error (.capacityFull "Activity is full") := by
  have hok : (create_inscription exDB exParent exDataCap0 "i1" "n1").2 =
      .ok { exInsc with actividad_id := "a2" } := by rfl
  refine ⟨rfl, rfl, by decide, by decide, rfl, rfl, hok, fun hcontra => ?_⟩
  rw [hok] at hcontra
  exact Except.noConfusion hcontra

/-- C3 (amended): when the role, student-ownership, activity-existence and
no-duplicate checks pass, `enroll` fails with CapacityError exactly when
`cupo_maximo` is set to a nonzero `n` with `n` at most the count of
Enrollments in status `confirmada` or `pago_pendiente` (statuses such as
`cancelada` are not counted); a capacity equal to `0` is skipped by the
truthiness test and never enforced. -/
theorem create_inscription_capacity_iff
    {db : DB} {u : User} {data : InscriptionCreate} {est : Estudiante} {act : Activity}
    (newId notifId : String)
    (hrole : u.role = UserRole.padre)
    (hest : db.estudiantes.find? (fun e =>
        e.id == data.estudiante_id && e.padre_id == some u.id) = some est)
    (hact : db.actividades.find? (fun a => a.id == data.actividad_id) = some act)
    (hdup : db.inscripciones.find? (fun i =>
        i.actividad_id == data.actividad_id &&
          i.estudiante_id == data.estudiante_id) = none) :
    (create_inscription db u data newId notifId =
        (db, .error (.capacityFull "Activity is full"))) ↔
      (∃ n : Int, act.cupo_maximo = some n ∧ n ≠ 0 ∧
        n ≤ (countActive db data.actividad_id : Int)) := by
  have hcond : (create_inscription db u data newId notifId =
      (db, .error (.capacityFull "Activity is full"))) ↔
      ((match act.cupo_maximo with
        | none => false
        | some n => n != 0 && decide (n ≤ (countActive db data.actividad_id : Int))) = true) := by
    by_cases hb : (match act.cupo_maximo with
        | none => false
        | some n => n != 0 && decide (n ≤ (countActive db data.actividad_id : Int))) = true
    · simp [create_inscription, hrole, hest, hact, hdup, hb]
    · rcases hC : u.colegio_id with _ | cid <;>
        simp [create_inscription, hrole, hest, hact, hdup, hb, hC, create_notification]
  rw [hcond]
  rcases act.cupo_maximo with _ | n <;> simp

/-- C3 amended witness: on `exDB` with two pending-payment enrollments
already on activity `a1` (capacity 10 shrunk to 2 in the witness state), a
third enroll attempt fails with CapacityError, and the iff's right side
holds at `n = 2`. -/
theorem create_inscription_capacity_iff_witness :
    (create_inscription
        { exDB with
            actividades := [{ exAct with cupo_maximo := some 2 }],
            inscripciones :=
              [{ exInsc with id := "iA", estudiante_id := "sA" },
               { exInsc with id := "iB", estudiante_id := "sB" }] }
        exParent exData "i1" "n1" =
      ({ exDB with
            actividades := [{ exAct with cupo_maximo := some 2 }],
            inscripciones :=
              [{ exInsc with id := "iA", estudiante_id := "sA" },
               { exInsc with id := "iB", estudiante_id := "sB" }] },
        .error (.capacityFull "Activity is full"))) :=
  (@create_inscription_capacity_iff
      { exDB with
          actividades := [{ exAct with cupo_maximo := some 2 }],
          inscripciones :=
            [{ exInsc with id := "iA", estudiante_id := "sA" },
             { exInsc with id := "iB", estudiante_id := "sB" }] }
      exParent exData exStudent { exAct with cupo_maximo := some 2 } "i1" "n1"
      (by decide) (by decide) (by decide) (by decide)).mpr
    ⟨2, by decide, by decide, by decide⟩

/-- C2: a successful `enroll` creates the Enrollment with status `confirmada`
when the Activity's price is `0` and `pago_pendiente` when it is positive,
and copies the tenant reference from the StudentRecord. -/
theorem create_inscription_initial_status
    {db : DB} {u : User} {data : InscriptionCreate} {newId notifId : String}
    {db' : DB} {insc : Inscription} {est : Estudiante} {act : Activity}
    (hok : create_inscription db u data newId notifId = (db', .ok insc))
    (hest : db.estudiantes.find? (fun e =>
        e.id == data.estudiante_id && e.padre_id == some u.id) = some est)
    (hact : db.actividades.find? (fun a => a.id == data.actividad_id) = some act) :
    insc.colegio_id = est.colegio_id ∧
    (act.costo_estudiante = 0 → insc.estado = InscriptionStatus.confirmada) ∧
    (0 < act.costo_estudiante → insc.estado = InscriptionStatus.pago_pendiente) := by
  simp only [create_inscription, hest, hact] at hok
  repeat' split at hok
  all_goals simp only [Prod.mk.injEq] at hok
  all_goals try (exact absurd hok.2 (fun hh => Except.noConfusion hh))
  all_goals obtain ⟨hdb, hrec⟩ := hok
  all_goals rw [Except.ok.injEq] at hrec
  all_goals subst hrec
  all_goals refine ⟨rfl, ?_, ?_⟩ <;> intro hcost <;> simp_all

/-- C2 witness: the zero-price and positive-price cases at concrete states:
enrolling `s1` into `a1` (price 50) yields a `pago_pendiente` Enrollment
carrying the student's tenant. -/
theorem create_inscription_initial_status_witness :
    create_inscription exDB exParent exData "i1" "n1" = (exDB1, .ok exInsc) ∧
    (exInsc.colegio_id = exStudent.colegio_id ∧
    (exAct.costo_estudiante = 0 → exInsc.estado = InscriptionStatus.confirmada) ∧
    (0 < exAct.costo_estudiante → exInsc.estado = InscriptionStatus.pago_pendiente)) :=
  ⟨by rfl,
    @create_inscription_initial_status exDB exParent exData "i1" "n1" exDB1 exInsc
      exStudent exAct (by rfl) (by decide) (by decide)⟩

/-- C7: every successful `enroll`, `create_payment` and `confirm_payment`
call appends exactly one Notification; for the two parent-driven calls it is
addressed to the calling parent (who owns the Enrollment/Payment), and for
`confirm_payment` to the parent recorded on the Payment. -/
theorem success_appends_one_notification :
    (∀ (db : DB) (u : User) (data : InscriptionCreate) (newId notifId : String)
        (db' : DB) (insc : Inscription),
      create_inscription db u data newId notifId = (db', .ok insc) →
      ∃ n : Notification, db'.notifications = db.notifications ++ [n] ∧
        n.destinatario_id = u.id) ∧
    (∀ (db : DB) (u : User) (data : PaymentCreate) (newId refSuffix notifId : String)
        (now : Nat) (db' : DB) (pay : Payment),
      create_payment db u data newId refSuffix notifId now = (db', .ok pay) →
      ∃ n : Notification, db'.notifications = db.notifications ++ [n] ∧
        n.destinatario_id = u.id) ∧
    (∀ (db : DB) (u : User) (payment_id notifId : String) (now : Nat)
        (db' : DB) (msg : String) (pay : Payment),
      confirm_payment db u payment_id notifId now = (db', .ok msg) →
      db.pagos.find? (fun p => p.id == payment_id) = some pay →
      ∃ n : Notification, db'.notifications = db.notifications ++ [n] ∧
        n.destinatario_id = pay.padre_id) := by
  refine ⟨?_, ?_, ?_⟩
  · intro db u data newId notifId db' insc hok
    simp only [create_inscription] at hok
    repeat' split at hok
    all_goals simp only [Prod.mk.injEq] at hok
    all_goals try (exact absurd hok.2 (fun hh => Except.noConfusion hh))
    all_goals exact ⟨_, by rw [← hok.1], create_notification_destinatario (by assumption)⟩
  · intro db u data newId refSuffix notifId now db' pay hok
    simp only [create_payment] at hok
    repeat' split at hok
    all_goals simp only [Prod.mk.injEq] at hok
    all_goals try (exact absurd hok.2 (fun hh => Except.noConfusion hh))
    all_goals exact ⟨_, by rw [← hok.1], create_notification_destinatario (by assumption)⟩
  · intro db u payment_id notifId now db' msg pay hok hp
    simp only [confirm_payment, hp] at hok
    repeat' split at hok
    all_goals simp only [Prod.mk.injEq] at hok
    all_goals try (exact absurd hok.2 (fun hh => Except.noConfusion hh))
    all_goals exact ⟨_, by rw [← hok.1], create_notification_destinatario (by assumption)⟩

/-- C7 witness: the enrollment of the running example appends exactly the
notification `n1` addressed to the acting parent `u1`. -/
theorem success_appends_one_notification_witness :
    create_inscription exDB exParent exData "i1" "n1" = (exDB1, .ok exInsc) ∧
    ∃ n : Notification, exDB1.notifications = exDB.notifications ++ [n] ∧
      n.destinatario_id = exParent.id :=
  ⟨by rfl,
    success_appends_one_notification.1 exDB exParent exData "i1" "n1" exDB1 exInsc
      (by rfl)⟩

/-- C8: when `enroll` or `create_payment` fails with one of the specified
errors (authorization, not-found, conflict, capacity — `Err.isSpecified`),
the returned state is exactly the input state: nothing was inserted or
modified. Only the modelled post-write crash (`Err.crash`) can leave a
mutated state behind. -/
theorem error_commits_no_side_effects :
    (∀ (db : DB) (u : User) (data : InscriptionCreate) (newId notifId : String)
        (db' : DB) (e : Err),
      create_inscription db u data newId notifId = (db', .error e) →
      e.isSpecified = true → db' = db) ∧
    (∀ (db : DB) (u : User) (data : PaymentCreate) (newId refSuffix notifId : String)
        (now : Nat) (db' : DB) (e : Err),
      create_payment db u data newId refSuffix notifId now = (db', .error e) →
      e.isSpecified = true → db' = db) := by
  constructor
  · intro db u data newId notifId db' e h hspec
    simp only [create_inscription] at h
    repeat' split at h
    all_goals simp only [Prod.mk.injEq] at h
    all_goals try (exact absurd h.2 (fun hh => Except.noConfusion hh))
    all_goals try (exact h.1.symm)
    all_goals injection h.2 with h3
    all_goals rw [← h3] at hspec
    all_goals simp [Err.isSpecified] at hspec
  · intro db u data newId refSuffix notifId now db' e h hspec
    simp only [create_payment] at h
    repeat' split at h
    all_goals simp only [Prod.mk.injEq] at h
    all_goals try (exact absurd h.2 (fun hh => Except.noConfusion hh))
    all_goals try (exact h.1.symm)
    all_goals injection h.2 with h3
    all_goals rw [← h3] at hspec
    all_goals simp [Err.isSpecified] at hspec

/-- C8 witness: a duplicate-payment attempt on `exDB2` (which already holds
the payment `p1`) fails with the conflict error and returns the state
unchanged. -/
theorem error_commits_no_side_effects_witness :
    create_payment exDB2 exParent exPayDataTr "p9" "REF9" "n9" 300 =
      ((create_payment exDB2 exParent exPayDataTr "p9" "REF9" "n9" 300).1,
        .error (.conflict "Payment already exists for this inscription")) ∧
    Err.isSpecified (.conflict "Payment already exists for this inscription") = true ∧
    (create_payment exDB2 exParent exPayDataTr "p9" "REF9" "n9" 300).1 = exDB2 :=
  ⟨by rfl, by decide,
    error_commits_no_side_effects.2 exDB2 exParent exPayDataTr "p9" "REF9" "n9" 300
      (create_payment exDB2 exParent exPayDataTr "p9" "REF9" "n9" 300).1
      (.conflict "Payment already exists for this inscription") (by rfl) (by decide)⟩

/-- C1: on a successful `create_payment`, a card payment comes back
`completado` with its processed timestamp set and the sibling Enrollment
promoted in the same call to `confirmada` with paid amount equal to the
Activity's price; a cash or transfer payment comes back `pendiente` and the
Enrollment collection is left entirely unchanged. -/
theorem create_payment_method_branches
    {db : DB} {u : User} {data : PaymentCreate} {newId refSuffix notifId : String}
    {now : Nat} {db' : DB} {pay : Payment} {insc : Inscription} {act : Activity}
    (hok : create_payment db u data newId refSuffix notifId now = (db', .ok pay))
    (hi : db.inscripciones.find? (fun i =>
        i.id == data.inscripcion_id && i.padre_id == u.id) = some insc)
    (ha : db.actividades.find? (fun a => a.id == insc.actividad_id) = some act)
    (hnd : (db.inscripciones.map (fun i => i.id)).Nodup) :
    (data.metodo_pago = PaymentMethod.tarjeta →
      pay.estado = PaymentStatus.completado ∧ pay.fecha_procesado = some now ∧
      db'.inscripciones.find? (fun i => i.id == data.inscripcion_id) =
        some { insc with estado := InscriptionStatus.confirmada,
                         monto_pagado := act.costo_estudiante,
                         metodo_pago_usado := some PaymentMethod.tarjeta,
                         fecha_pago := some now }) ∧
    ((data.metodo_pago = PaymentMethod.transferencia ∨
      data.metodo_pago = PaymentMethod.efectivo) →
      pay.estado = PaymentStatus.pendiente ∧ db'.inscripciones = db.inscripciones) := by
  have hid : db.inscripciones.find? (fun i => i.id == data.inscripcion_id) = some insc :=
    @find?_key_of_find?_conj Inscription (fun i => i.id) (fun i => i.padre_id == u.id)
      db.inscripciones data.inscripcion_id insc hnd hi
  have hupd : (updateFirst (fun i => i.id == data.inscripcion_id)
      (fun i => { i with estado := InscriptionStatus.confirmada,
                         monto_pagado := act.costo_estudiante,
                         metodo_pago_usado := some data.metodo_pago,
                         fecha_pago := some now })
      db.inscripciones).find? (fun i => i.id == data.inscripcion_id) =
      (db.inscripciones.find? (fun i => i.id == data.inscripcion_id)).map
        (fun i => { i with estado := InscriptionStatus.confirmada,
                           monto_pagado := act.costo_estudiante,
                           metodo_pago_usado := some data.metodo_pago,
                           fecha_pago := some now }) :=
    find?_updateFirst db.inscripciones (fun a h => h)
  rcases hm : data.metodo_pago
  all_goals rw [hm] at hupd
  all_goals simp only [create_payment, hi, ha, hm] at hok
  all_goals repeat' split at hok
  all_goals simp only [Prod.mk.injEq] at hok
  all_goals try (exact absurd hok.2 (fun hh => Except.noConfusion hh))
  all_goals obtain ⟨h1, h2⟩ := hok
  all_goals rw [Except.ok.injEq] at h2
  all_goals subst h2
  · -- card
    refine ⟨fun _ => ⟨rfl, rfl, ?_⟩, fun hc => ?_⟩
    · rw [← h1]
      show (updateFirst (fun i => i.id == data.inscripcion_id) _
        db.inscripciones).find? (fun i => i.id == data.inscripcion_id) = _
      rw [hupd, hid]
      rfl
    · rcases hc with hc | hc <;> exact absurd hc (by simp)
  · -- transfer
    exact ⟨fun hc => absurd hc (by simp), fun _ => ⟨rfl, by rw [← h1]⟩⟩
  · -- cash
    exact ⟨fun hc => absurd hc (by simp), fun _ => ⟨rfl, by rw [← h1]⟩⟩

/-- C1 witness: paying by card for the pending enrollment of `exDB1`
completes the Payment and promotes the Enrollment to `confirmada` with paid
amount 50 in the same call. -/
theorem create_payment_method_branches_witness :
    create_payment exDB1 exParent exPayDataT "p1" "REF1" "n2" 100 =
      ((create_payment exDB1 exParent exPayDataT "p1" "REF1" "n2" 100).1, .ok exPayT) ∧
    (exPayDataT.metodo_pago = PaymentMethod.tarjeta →
      exPayT.estado = PaymentStatus.completado ∧
      exPayT.fecha_procesado = some 100 ∧
      (create_payment exDB1 exParent exPayDataT "p1" "REF1" "n2" 100).1.inscripciones.find?
          (fun i => i.id == exPayDataT.inscripcion_id) =
        some { exInsc with estado := InscriptionStatus.confirmada,
                           monto_pagado := exAct.costo_estudiante,
                           metodo_pago_usado := some PaymentMethod.tarjeta,
                           fecha_pago := some 100 }) :=
  ⟨by rfl,
    (@create_payment_method_branches exDB1 exParent exPayDataT "p1" "REF1" "n2" 100
      (create_payment exDB1 exParent exPayDataT "p1" "REF1" "n2" 100).1 exPayT
      exInsc exAct (by rfl) (by decide) (by decide) (by decide)).1⟩

end Chuflay
